import Mathlib

/-!
Shallow embedding of the NSE scraper core (src/scraper.py): the field-tolerant
normalizer helper, the four HTML table parsers, and the tiered fetch
orchestration of the category operations. Definitions follow the Python source;
theorems settle the specification claims about them.
-/

namespace NSEScraper

/-! ## Python value model for the normalizer -/

/-- A JSON-like Python value as seen by the normalizer helper: a string, an
integer, or null (Python None). -/
inductive JVal where
  | str (s : String)
  | num (n : Int)
  | null
  deriving Repr, DecidableEq

/-- The Python truth of the test `val is not None and val != ""`. -/
def JVal.usable : JVal → Bool
  | .null => false
  | .str s => s ≠ ""
  | .num _ => true

/-- The Python coercion `str(val)` for the values of the model. -/
def JVal.toStr : JVal → String
  | .str s => s
  | .num n => toString n
  | .null => "None"

/-- A raw item dictionary: an association list from keys to values. `get`
returns the value of the first binding of the key, as Python dicts (with
unique keys) do. -/
abbrev Item := List (String × JVal)

def Item.get (item : Item) (k : String) : Option JVal :=
  List.lookup k item

/-- Embedding of scraper.py `_pick`: scan candidate keys in order; on the first
key whose value is present, not None and not the empty string, return
`str(val).strip()`; otherwise the default. -/
def _pick (item : Item) (keys : List String) (default : String := "") : String :=
  match keys with
  | [] => default
  | k :: ks =>
    match item.get k with
    | some v => if v.usable then v.toStr.trim else _pick item ks default
    | none => _pick item ks default

/-- Spec-side reading of the normalizer contract: the first candidate key
carrying a usable (present, non-null, non-empty) value. -/
def firstUsable (item : Item) (keys : List String) : Option JVal :=
  keys.findSome? fun k =>
    match item.get k with
    | some v => if v.usable then some v else none
    | none => none

/-! ## HTML document model for the table parsers

An HTML cell records exactly the features the parsers inspect: its stripped
visible text, its first anchor (with optional href and its stripped text), the
two data attributes consulted for full descriptions, and the text of a
`span.content` child when present. A table has an optional id, a class list
and an optional tbody holding its rows. -/

structure Anchor where
  href : Option String
  text : String
  deriving Repr, DecidableEq

structure Cell where
  text : String
  anchor : Option Anchor
  dataWsSymbolColPrev : Option String
  dataWsSymbolCol : Option String
  contentSpan : Option String
  deriving Repr, DecidableEq

instance : Inhabited Cell := ⟨⟨"", none, none, none, none⟩⟩

structure Table where
  id : Option String
  classes : List String
  tbody : Option (List (List Cell))
  deriving Repr, DecidableEq

/-- A document is the sequence of its table elements; `find` walks them in
document order. -/
abbrev Doc := List Table

def findTableById (doc : Doc) (i : String) : Option Table :=
  List.find? (fun t => t.id = some i) doc

/-- Truthiness of an optional attribute string in Python: absent and the empty
string are both falsy. -/
def truthyAttr : Option String → Option String
  | some s => if s = "" then none else some s
  | none => none

/-- The Python expression `a or b` on optional attribute strings: the value of
`a` when truthy, else the value of `b`. -/
def pyOr (a b : Option String) : Option String :=
  match truthyAttr a with
  | some s => some s
  | none => b

/-- Symbol extraction shared by all row parsers: the text of the first anchor
in the cell when one exists, else the text of the cell. -/
def symbolOf (c : Cell) : String :=
  match c.anchor with
  | some a => a.text
  | none => c.text

/-- Details extraction shared by the event-calendar and announcements parsers:
prefer the data-ws-symbol-col-prev attribute, then data-ws-symbol-col (Python
`or`, then an `if` on the result, so empty attributes fall through), then the
text of a `span.content` child, then the raw cell text. -/
def detailsOf (c : Cell) : String :=
  match truthyAttr (pyOr c.dataWsSymbolColPrev c.dataWsSymbolCol) with
  | some a => a.trim
  | none =>
    match c.contentSpan with
    | some s => s
    | none => c.text

/-- Link extraction shared by the parsers: the href of the first anchor of the
cell when the anchor exists and has an href attribute, else the empty
string. -/
def linkOf (c : Cell) : String :=
  match c.anchor with
  | some a => a.href.getD ""
  | none => ""

/-! ## Record types and per-row extraction for the four table parsers -/

structure EventCalRecord where
  symbol : String
  company : String
  purpose : String
  details : String
  date : String
  deriving Repr, DecidableEq

structure BoardMeetingRecord where
  symbol : String
  company : String
  purpose : String
  details_link : String
  meeting_date : String
  attachment_link : String
  broadcast_datetime : String
  deriving Repr, DecidableEq

structure CorpActionRecord where
  symbol : String
  company : String
  series : String
  purpose : String
  face_value : String
  ex_date : String
  record_date : String
  book_closure_start : String
  book_closure_end : String
  deriving Repr, DecidableEq

structure AnncRecord where
  symbol : String
  company : String
  subject : String
  details : String
  attachment_link : String
  xbrl_link : String
  broadcast_datetime : String
  deriving Repr, DecidableEq

/-- One iteration of the row loop of `_parse_event_calendar_table`: rows with
fewer than 4 cells are skipped; the date is read from the fifth cell only when
the row has at least 5 cells, else it is the empty string. -/
def parseEventCalRow (tds : List Cell) : Option EventCalRecord :=
  if tds.length < 4 then none
  else some
    { symbol := symbolOf (tds.getD 0 default)
      company := (tds.getD 1 default).text
      purpose := (tds.getD 2 default).text
      details := detailsOf (tds.getD 3 default)
      date := if tds.length ≥ 5 then (tds.getD 4 default).text else "" }

/-- One iteration of the row loop of `_parse_board_meetings_table`: rows with
fewer than 7 cells are skipped. -/
def parseBoardMeetingRow (tds : List Cell) : Option BoardMeetingRecord :=
  if tds.length < 7 then none
  else some
    { symbol := symbolOf (tds.getD 0 default)
      company := (tds.getD 1 default).text
      purpose := (tds.getD 2 default).text
      details_link := linkOf (tds.getD 3 default)
      meeting_date := (tds.getD 4 default).text
      attachment_link := linkOf (tds.getD 5 default)
      broadcast_datetime := (tds.getD 6 default).text }

/-- One iteration of the row loop of `_parse_corporate_actions_table`: rows
with fewer than 9 cells are skipped. -/
def parseCorpActionRow (tds : List Cell) : Option CorpActionRecord :=
  if tds.length < 9 then none
  else some
    { symbol := symbolOf (tds.getD 0 default)
      company := (tds.getD 1 default).text
      series := (tds.getD 2 default).text
      purpose := (tds.getD 3 default).text
      face_value := (tds.getD 4 default).text
      ex_date := (tds.getD 5 default).text
      record_date := (tds.getD 6 default).text
      book_closure_start := (tds.getD 7 default).text
      book_closure_end := (tds.getD 8 default).text }

/-- One iteration of the row loop of `_parse_announcements_table`: rows with
fewer than 7 cells are skipped; attachment and XBRL links default to the empty
string when the cell has no anchor or its anchor has no href. -/
def parseAnncRow (tds : List Cell) : Option AnncRecord :=
  if tds.length < 7 then none
  else some
    { symbol := symbolOf (tds.getD 0 default)
      company := (tds.getD 1 default).text
      subject := (tds.getD 2 default).text
      details := detailsOf (tds.getD 3 default)
      attachment_link := linkOf (tds.getD 4 default)
      xbrl_link := linkOf (tds.getD 5 default)
      broadcast_datetime := (tds.getD 6 default).text }

/-! ## The four table parsers -/

/-- Embedding of `_parse_event_calendar_table`: locate the table with id
CFeventCalendarTable; missing table or missing tbody yields the empty list;
otherwise one record per qualifying row. -/
def _parse_event_calendar_table (doc : Doc) : List EventCalRecord :=
  match findTableById doc "CFeventCalendarTable" with
  | none => []
  | some t =>
    match t.tbody with
    | none => []
    | some trs => trs.filterMap parseEventCalRow

/-- Embedding of `_parse_board_meetings_table` (table id
CFboardmeetingEquityTable). -/
def _parse_board_meetings_table (doc : Doc) : List BoardMeetingRecord :=
  match findTableById doc "CFboardmeetingEquityTable" with
  | none => []
  | some t =>
    match t.tbody with
    | none => []
    | some trs => trs.filterMap parseBoardMeetingRow

/-- Embedding of `_parse_corporate_actions_table` (table id
CFcorpactionsEquityTable). -/
def _parse_corporate_actions_table (doc : Doc) : List CorpActionRecord :=
  match findTableById doc "CFcorpactionsEquityTable" with
  | none => []
  | some t =>
    match t.tbody with
    | none => []
    | some trs => trs.filterMap parseCorpActionRow

/-- The class-based fallback of the announcements parser: a table one of whose
classes contains the substring "annc" after lowercasing. -/
def hasAnncClass (t : Table) : Bool :=
  t.classes.any fun c => (c.toLower.splitOn "annc").length ≥ 2

/-- Table lookup of `_parse_announcements_table`: id CFanncEquityTable, then id
CFanncEquity, then the first table with an "annc" class. -/
def findAnncTable (doc : Doc) : Option Table :=
  match findTableById doc "CFanncEquityTable" with
  | some t => some t
  | none =>
    match findTableById doc "CFanncEquity" with
    | some t => some t
    | none => List.find? hasAnncClass doc

/-- Embedding of `_parse_announcements_table`. -/
def _parse_announcements_table (doc : Doc) : List AnncRecord :=
  match findAnncTable doc with
  | none => []
  | some t =>
    match t.tbody with
    | none => []
    | some trs => trs.filterMap parseAnncRow

/-! ## Tiered fetch orchestration

The four category operations `get_event_calendar_for_symbol`,
`get_board_meetings_for_symbol`, `get_corporate_actions_for_symbol` and
`get_announcements_for_symbol` share one shape: try the JSON API helper (which
first primes a fresh session via `_init_nse_session`), swallowing any
exception; return its rows when non-empty; otherwise raise RuntimeError if
USE_SELENIUM_FALLBACK is false, else build a Selenium driver (a failure there
propagates), navigate, wait for the table, and return the table parse.

The effects are reified: the outcome of the API helper and of the browser are
inputs, and the run is instrumented with the list of tiers invoked and the
number of `_init_nse_session` calls made. -/

/-- Exceptions of the Python runtime that the pipeline distinguishes: an HTTP
error with a status code (403 is the anti-automation block), a RuntimeError
raised by the orchestrator itself, and a WebDriver failure (driver launch or
explicit wait). -/
inductive PyError where
  | http (code : Nat)
  | runtime (msg : String)
  | webdriver (msg : String)
  deriving Repr, DecidableEq

/-- Outcome of one call of an API tier helper: the parsed row list, or the
exception it raised (session priming failure, transport error, HTTP status
error such as 403, JSON parse error). -/
def ApiOutcome (α : Type) := Except PyError (List α)

/-- Outcome of the browser tier: `_build_driver` raised, or the explicit wait
raised after navigation, or the page was rendered into a document. -/
inductive BrowserOutcome where
  | launchFail (e : PyError)
  | waitFail (e : PyError)
  | rendered (doc : Doc)
  deriving Repr

/-- Module-level configuration read from the environment. -/
structure Config where
  useSeleniumFallback : Bool
  deriving Repr, DecidableEq

/-- The fetch tiers of the specification. -/
inductive TierTag where
  | apiProbe
  | staticHtml
  | browserRender
  deriving Repr, DecidableEq

/-- Instrumentation of one category-fetch run: which tiers were invoked, in
order, and how many times `_init_nse_session` was called (each API helper
call primes exactly one fresh session; there is no other call site). -/
structure RunLog where
  tiersInvoked : List TierTag
  sessionPrimes : Nat
  deriving Repr, DecidableEq

/-- The common orchestration of the event-calendar, board-meetings and
corporate-actions operations, with the wait raising out of the driver block
on failure (the `finally: driver.quit()` re-raises it). -/
def tieredFetch {α : Type} (cfg : Config) (api : ApiOutcome α)
    (browser : BrowserOutcome) (parse : Doc → List α) :
    Except PyError (List α) × RunLog :=
  let apiLog : RunLog := { tiersInvoked := [.apiProbe], sessionPrimes := 1 }
  let fullLog : RunLog :=
    { tiersInvoked := [.apiProbe, .browserRender], sessionPrimes := 1 }
  let fallback : Except PyError (List α) × RunLog :=
    if !cfg.useSeleniumFallback then
      (.error (.runtime "API fetch failed and Selenium fallback disabled"), apiLog)
    else
      match browser with
      | .launchFail e => (.error e, fullLog)
      | .waitFail e => (.error e, fullLog)
      | .rendered doc => (.ok (parse doc), fullLog)
  match api with
  | .ok rows => if rows.isEmpty then fallback else (.ok rows, apiLog)
  | .error _ => fallback

/-- Embedding of `get_event_calendar_for_symbol`, over the reified outcomes of
its API helper and browser tier. -/
def get_event_calendar_for_symbol (cfg : Config)
    (api : ApiOutcome EventCalRecord) (browser : BrowserOutcome) :
    Except PyError (List EventCalRecord) × RunLog :=
  tieredFetch cfg api browser _parse_event_calendar_table

/-- Embedding of `get_board_meetings_for_symbol`. -/
def get_board_meetings_for_symbol (cfg : Config)
    (api : ApiOutcome BoardMeetingRecord) (browser : BrowserOutcome) :
    Except PyError (List BoardMeetingRecord) × RunLog :=
  tieredFetch cfg api browser _parse_board_meetings_table

/-- Embedding of `get_corporate_actions_for_symbol`. -/
def get_corporate_actions_for_symbol (cfg : Config)
    (api : ApiOutcome CorpActionRecord) (browser : BrowserOutcome) :
    Except PyError (List CorpActionRecord) × RunLog :=
  tieredFetch cfg api browser _parse_corporate_actions_table

/-- Browser outcome of the announcements operation. Every wait strategy there
is individually wrapped in try/except, so once the driver launches the page
source at extraction time is always parsed; a wait failure never escapes. -/
inductive AnncBrowserOutcome where
  | launchFail (e : PyError)
  | rendered (doc : Doc)
  deriving Repr

/-- Embedding of `get_announcements_for_symbol`. Its API helper
`_fetch_announcements_api` swallows its own exceptions and returns an empty
list, so the orchestrator sees rows (possibly empty), never an exception. -/
def get_announcements_for_symbol (cfg : Config)
    (api : ApiOutcome AnncRecord) (browser : AnncBrowserOutcome) :
    Except PyError (List AnncRecord) × RunLog :=
  let apiLog : RunLog := { tiersInvoked := [.apiProbe], sessionPrimes := 1 }
  let fullLog : RunLog :=
    { tiersInvoked := [.apiProbe, .browserRender], sessionPrimes := 1 }
  let rows : List AnncRecord :=
    match api with
    | .ok rs => rs
    | .error _ => []
  if !rows.isEmpty then (.ok rows, apiLog)
  else if !cfg.useSeleniumFallback then
    (.error (.runtime "API fetch failed and Selenium fallback disabled"), apiLog)
  else
    match browser with
    | .launchFail e => (.error e, fullLog)
    | .rendered doc => (.ok (_parse_announcements_table doc), fullLog)

/-! ## Sample inputs used by witnesses -/

/-- A document holding the four category tables, each with a single row of
zero cells. -/
def sampleShortRowDoc : Doc :=
  [⟨some "CFeventCalendarTable", [], some [[]]⟩,
   ⟨some "CFboardmeetingEquityTable", [], some [[]]⟩,
   ⟨some "CFcorpactionsEquityTable", [], some [[]]⟩,
   ⟨some "CFanncEquityTable", [], some [[]]⟩]

/-! ## Theorems -/

/-- Removing from a list an element the function sends to none leaves its
filterMap unchanged. -/
theorem filterMap_middle_none {α β : Type} (f : α → Option β)
    (pre post : List α) (s : α) (hs : f s = none) :
    (pre ++ s :: post).filterMap f = (pre ++ post).filterMap f := by
  simp [List.filterMap_append, List.filterMap_cons, hs]

/-- C2: `_pick` returns the trimmed string form of the value of the first
candidate key whose value is present, non-null and non-empty, and the default
when no candidate qualifies; being a total function of the item and key list,
it never fails, even when every key is missing. -/
theorem C2_pick_first_usable (item : Item) (keys : List String) (d : String) :
    _pick item keys d =
      match firstUsable item keys with
      | some v => v.toStr.trim
      | none => d := by
  induction keys with
  | nil => rfl
  | cons k ks ih =>
    rw [_pick, firstUsable, List.findSome?_cons]
    cases h : item.get k with
    | none => simpa [h, firstUsable] using ih
    | some v =>
      by_cases hv : v.usable
      · simp [h, hv]
      · simpa [h, hv, firstUsable] using ih

/-- C3: each table parser returns the empty list, rather than failing, both
when no candidate table identifier or selector matches in the document and
when the matched table has no tbody. -/
theorem C3_empty_on_missing_table (doc : Doc) :
    (findTableById doc "CFeventCalendarTable" = none →
      _parse_event_calendar_table doc = []) ∧
    (∀ t, findTableById doc "CFeventCalendarTable" = some t → t.tbody = none →
      _parse_event_calendar_table doc = []) ∧
    (findAnncTable doc = none → _parse_announcements_table doc = []) ∧
    (∀ t, findAnncTable doc = some t → t.tbody = none →
      _parse_announcements_table doc = []) := by
  refine ⟨fun h => ?_, fun t h1 h2 => ?_, fun h => ?_, fun t h1 h2 => ?_⟩
  · simp [_parse_event_calendar_table, h]
  · simp [_parse_event_calendar_table, h1, h2]
  · simp [_parse_announcements_table, h]
  · simp [_parse_announcements_table, h1, h2]

/-- Witness for C3 at concrete documents: the empty document matches no
identifier for either parser, and one-table documents whose table lacks a
tbody also yield the empty list. -/
theorem C3_witness :
    _parse_event_calendar_table [] = [] ∧
    _parse_event_calendar_table [⟨some "CFeventCalendarTable", [], none⟩] = [] ∧
    _parse_announcements_table [] = [] ∧
    _parse_announcements_table [⟨some "CFanncEquityTable", [], none⟩] = [] :=
  ⟨(C3_empty_on_missing_table []).1 rfl,
   (C3_empty_on_missing_table [⟨some "CFeventCalendarTable", [], none⟩]).2.1
     ⟨some "CFeventCalendarTable", [], none⟩ (by decide) rfl,
   (C3_empty_on_missing_table []).2.2.1 rfl,
   (C3_empty_on_missing_table [⟨some "CFanncEquityTable", [], none⟩]).2.2.2
     ⟨some "CFanncEquityTable", [], none⟩ (by decide) rfl⟩

/-- C4: a row with fewer cells than the category minimum (4 for the event
calendar, 7 for board meetings and announcements, 9 for corporate actions) is
skipped by the corresponding table parser: the output over a tbody containing
it equals the output with the row removed. -/
theorem C4_short_rows_skipped (doc : Doc) (t : Table)
    (pre post : List (List Cell)) (short : List Cell) :
    (findTableById doc "CFeventCalendarTable" = some t →
      t.tbody = some (pre ++ short :: post) → short.length < 4 →
      _parse_event_calendar_table doc = (pre ++ post).filterMap parseEventCalRow) ∧
    (findTableById doc "CFboardmeetingEquityTable" = some t →
      t.tbody = some (pre ++ short :: post) → short.length < 7 →
      _parse_board_meetings_table doc = (pre ++ post).filterMap parseBoardMeetingRow) ∧
    (findTableById doc "CFcorpactionsEquityTable" = some t →
      t.tbody = some (pre ++ short :: post) → short.length < 9 →
      _parse_corporate_actions_table doc = (pre ++ post).filterMap parseCorpActionRow) ∧
    (findAnncTable doc = some t →
      t.tbody = some (pre ++ short :: post) → short.length < 7 →
      _parse_announcements_table doc = (pre ++ post).filterMap parseAnncRow) := by
  refine ⟨fun h1 h2 hlen => ?_, fun h1 h2 hlen => ?_,
          fun h1 h2 hlen => ?_, fun h1 h2 hlen => ?_⟩
  · rw [_parse_event_calendar_table]
    simp only [h1, h2]
    exact filterMap_middle_none _ _ _ _ (by simp [parseEventCalRow, hlen])
  · rw [_parse_board_meetings_table]
    simp only [h1, h2]
    exact filterMap_middle_none _ _ _ _ (by simp [parseBoardMeetingRow, hlen])
  · rw [_parse_corporate_actions_table]
    simp only [h1, h2]
    exact filterMap_middle_none _ _ _ _ (by simp [parseCorpActionRow, hlen])
  · rw [_parse_announcements_table]
    simp only [h1, h2]
    exact filterMap_middle_none _ _ _ _ (by simp [parseAnncRow, hlen])

/-- Witness for C4 at a concrete document: each category table holds one row
of zero cells, and each parser returns the empty list. -/
theorem C4_witness :
    _parse_event_calendar_table sampleShortRowDoc = [] ∧
    _parse_board_meetings_table sampleShortRowDoc = [] ∧
    _parse_corporate_actions_table sampleShortRowDoc = [] ∧
    _parse_announcements_table sampleShortRowDoc = [] :=
  ⟨(C4_short_rows_skipped sampleShortRowDoc
      ⟨some "CFeventCalendarTable", [], some [[]]⟩ [] [] []).1
      (by decide) rfl (by decide),
   (C4_short_rows_skipped sampleShortRowDoc
      ⟨some "CFboardmeetingEquityTable", [], some [[]]⟩ [] [] []).2.1
      (by decide) rfl (by decide),
   (C4_short_rows_skipped sampleShortRowDoc
      ⟨some "CFcorpactionsEquityTable", [], some [[]]⟩ [] [] []).2.2.1
      (by decide) rfl (by decide),
   (C4_short_rows_skipped sampleShortRowDoc
      ⟨some "CFanncEquityTable", [], some [[]]⟩ [] [] []).2.2.2
      (by decide) rfl (by decide)⟩

/-- C9: an announcements row with at least 7 cells whose XBRL cell has no
anchor, or an anchor without an href, still produces a record whose xbrl_link
is the empty string, and that record appears in the output of
`_parse_announcements_table` for any document whose matched table contains the
row. -/
theorem C9_missing_xbrl_anchor (tds : List Cell) (h7 : 7 ≤ tds.length)
    (hx : (tds.getD 5 default).anchor = none ∨
          ∃ a, (tds.getD 5 default).anchor = some a ∧ a.href = none) :
    ∃ r, parseAnncRow tds = some r ∧ r.xbrl_link = "" ∧
      ∀ (doc : Doc) (t : Table) (pre post : List (List Cell)),
        findAnncTable doc = some t → t.tbody = some (pre ++ tds :: post) →
        r ∈ _parse_announcements_table doc := by
  have hlt : ¬ tds.length < 7 := by omega
  have hrow : parseAnncRow tds = some
      { symbol := symbolOf (tds.getD 0 default)
        company := (tds.getD 1 default).text
        subject := (tds.getD 2 default).text
        details := detailsOf (tds.getD 3 default)
        attachment_link := linkOf (tds.getD 4 default)
        xbrl_link := linkOf (tds.getD 5 default)
        broadcast_datetime := (tds.getD 6 default).text } := by
    simp [parseAnncRow, hlt]
  refine ⟨_, hrow, ?_, ?_⟩
  · rcases hx with h | ⟨a, ha, hhref⟩
    · show linkOf (tds.getD 5 default) = ""
      simp only [linkOf, h]
    · show linkOf (tds.getD 5 default) = ""
      simp only [linkOf, ha, hhref, Option.getD_none]
  · intro doc t pre post h1 h2
    rw [_parse_announcements_table]
    simp only [h1, h2]
    exact List.mem_filterMap.mpr
      ⟨tds, List.mem_append_right _ (List.mem_cons_self _ _), hrow⟩

/-- Witness for C9 at a concrete row of 7 default cells (no anchors
anywhere): the record is produced with an empty xbrl_link. -/
theorem C9_witness :
    7 ≤ (List.replicate 7 (default : Cell)).length ∧
    ∃ r, parseAnncRow (List.replicate 7 (default : Cell)) = some r ∧
      r.xbrl_link = "" ∧
      ∀ (doc : Doc) (t : Table) (pre post : List (List Cell)),
        findAnncTable doc = some t →
        t.tbody = some (pre ++ List.replicate 7 (default : Cell) :: post) →
        r ∈ _parse_announcements_table doc :=
  ⟨by decide,
   C9_missing_xbrl_anchor (List.replicate 7 (default : Cell)) (by decide)
     (Or.inl rfl)⟩

/-- C10: an event-calendar row with exactly 4 cells still yields a record,
whose date field is the empty string (the date is read from a fifth cell only
when present); the record appears in the output of
`_parse_event_calendar_table` for any document whose matched table contains
the row. -/
theorem C10_four_cell_row_empty_date (tds : List Cell) (h : tds.length = 4) :
    ∃ r, parseEventCalRow tds = some r ∧ r.date = "" ∧
      ∀ (doc : Doc) (t : Table) (pre post : List (List Cell)),
        findTableById doc "CFeventCalendarTable" = some t →
        t.tbody = some (pre ++ tds :: post) →
        r ∈ _parse_event_calendar_table doc := by
  have hrow : parseEventCalRow tds = some
      { symbol := symbolOf (tds.getD 0 default)
        company := (tds.getD 1 default).text
        purpose := (tds.getD 2 default).text
        details := detailsOf (tds.getD 3 default)
        date := "" } := by
    simp [parseEventCalRow, h]
  refine ⟨_, hrow, rfl, ?_⟩
  intro doc t pre post h1 h2
  rw [_parse_event_calendar_table]
  simp only [h1, h2]
  exact List.mem_filterMap.mpr
    ⟨tds, List.mem_append_right _ (List.mem_cons_self _ _), hrow⟩

/-- Witness for C10 at a concrete row of exactly 4 default cells. -/
theorem C10_witness :
    (List.replicate 4 (default : Cell)).length = 4 ∧
    ∃ r, parseEventCalRow (List.replicate 4 (default : Cell)) = some r ∧
      r.date = "" ∧
      ∀ (doc : Doc) (t : Table) (pre post : List (List Cell)),
        findTableById doc "CFeventCalendarTable" = some t →
        t.tbody = some (pre ++ List.replicate 4 (default : Cell) :: post) →
        r ∈ _parse_event_calendar_table doc :=
  ⟨by decide,
   C10_four_cell_row_empty_date (List.replicate 4 (default : Cell)) (by decide)⟩

/-- C1: when the API tier returns a non-empty row list, the category
operation returns exactly those rows, and neither a static HTML fetch nor the
browser tier is invoked (the run invokes only the API probe), shown for
`get_event_calendar_for_symbol` and `get_corporate_actions_for_symbol` under
any configuration and any would-be browser behaviour. -/
theorem C1_api_short_circuit (cfg : Config)
    (rowsE : List EventCalRecord) (rowsC : List CorpActionRecord)
    (browserE browserC : BrowserOutcome)
    (hE : rowsE ≠ []) (hC : rowsC ≠ []) :
    get_event_calendar_for_symbol cfg (.ok rowsE) browserE =
      (.ok rowsE, ⟨[.apiProbe], 1⟩) ∧
    TierTag.staticHtml ∉
      (get_event_calendar_for_symbol cfg (.ok rowsE) browserE).2.tiersInvoked ∧
    TierTag.browserRender ∉
      (get_event_calendar_for_symbol cfg (.ok rowsE) browserE).2.tiersInvoked ∧
    get_corporate_actions_for_symbol cfg (.ok rowsC) browserC =
      (.ok rowsC, ⟨[.apiProbe], 1⟩) ∧
    TierTag.staticHtml ∉
      (get_corporate_actions_for_symbol cfg (.ok rowsC) browserC).2.tiersInvoked ∧
    TierTag.browserRender ∉
      (get_corporate_actions_for_symbol cfg (.ok rowsC) browserC).2.tiersInvoked := by
  obtain ⟨a, l, rfl⟩ := List.exists_cons_of_ne_nil hE
  obtain ⟨b, m, rfl⟩ := List.exists_cons_of_ne_nil hC
  refine ⟨rfl, ?_, ?_, rfl, ?_, ?_⟩ <;>
    simp [get_event_calendar_for_symbol, get_corporate_actions_for_symbol,
          tieredFetch]

/-- Witness for C1 at a concrete configuration, singleton API results and a
browser tier that would fail if it were reached. -/
theorem C1_witness :
    get_event_calendar_for_symbol ⟨true⟩
        (.ok [⟨"RELIANCE", "Reliance Industries Limited", "Financial Results",
               "quarterly results", "19-Jul-2024"⟩])
        (.launchFail (.webdriver "chrome not found")) =
      (.ok [⟨"RELIANCE", "Reliance Industries Limited", "Financial Results",
             "quarterly results", "19-Jul-2024"⟩], ⟨[.apiProbe], 1⟩) ∧
    get_corporate_actions_for_symbol ⟨true⟩
        (.ok [⟨"RELIANCE", "Reliance Industries Limited", "EQ",
               "Dividend - Rs 5.5 Per Share", "10", "14-Aug-2025",
               "14-Aug-2025", "-", "-"⟩])
        (.launchFail (.webdriver "chrome not found")) =
      (.ok [⟨"RELIANCE", "Reliance Industries Limited", "EQ",
             "Dividend - Rs 5.5 Per Share", "10", "14-Aug-2025",
             "14-Aug-2025", "-", "-"⟩], ⟨[.apiProbe], 1⟩) := by
  have h := C1_api_short_circuit ⟨true⟩
    [⟨"RELIANCE", "Reliance Industries Limited", "Financial Results",
      "quarterly results", "19-Jul-2024"⟩]
    [⟨"RELIANCE", "Reliance Industries Limited", "EQ",
      "Dividend - Rs 5.5 Per Share", "10", "14-Aug-2025",
      "14-Aug-2025", "-", "-"⟩]
    (.launchFail (.webdriver "chrome not found"))
    (.launchFail (.webdriver "chrome not found"))
    (by simp) (by simp)
  exact ⟨h.1, h.2.2.2.1⟩

/-- C5: for board meetings with the browser tier enabled, when the API tier
failed or was empty and the browser tier renders a page whose extraction
yields no rows, the caller receives the empty list as a success; when instead
the driver launch fails with no prior tier success, that failure is raised to
the caller, not an empty result. -/
theorem C5_board_meetings_final_tier (cfg : Config)
    (hcfg : cfg.useSeleniumFallback = true)
    (api : ApiOutcome BoardMeetingRecord)
    (hapi : (∃ e, api = .error e) ∨ api = .ok [])
    (doc : Doc) (hdoc : _parse_board_meetings_table doc = [])
    (e : PyError) :
    (get_board_meetings_for_symbol cfg api (.rendered doc)).1 = .ok [] ∧
    (get_board_meetings_for_symbol cfg api (.launchFail e)).1 = .error e := by
  obtain ⟨e', rfl⟩ | rfl := hapi <;>
    simp [get_board_meetings_for_symbol, tieredFetch, hcfg, hdoc]

/-- Witness for C5: an HTTP 500 at the API tier, a rendered document with no
board-meetings table, and a launch failure. -/
theorem C5_witness :
    (Config.useSeleniumFallback ⟨true⟩ = true) ∧
    _parse_board_meetings_table [] = [] ∧
    (get_board_meetings_for_symbol ⟨true⟩ (.error (.http 500))
        (.rendered [])).1 = .ok [] ∧
    (get_board_meetings_for_symbol ⟨true⟩ (.error (.http 500))
        (.launchFail (.webdriver "chrome not found"))).1 =
      .error (.webdriver "chrome not found") :=
  ⟨rfl, rfl,
   (C5_board_meetings_final_tier ⟨true⟩ rfl (.error (.http 500))
      (Or.inl ⟨.http 500, rfl⟩) [] rfl (.webdriver "chrome not found")).1,
   (C5_board_meetings_final_tier ⟨true⟩ rfl (.error (.http 500))
      (Or.inl ⟨.http 500, rfl⟩) [] rfl (.webdriver "chrome not found")).2⟩

/-- C6 counterexample: with the browser tier enabled, an HTTP 403 block on the
API attempt of `get_board_meetings_for_symbol` leads to exactly one
`_init_nse_session` call in the whole run: the initial priming inside the API
helper. No session re-prime happens (the total is not two), no retry of the
tier occurs, and no static-HTML tier is ever invoked, contradicting the claim
that the session is re-primed exactly once before the browser tier. -/
theorem C6_counterexample :
    (get_board_meetings_for_symbol ⟨true⟩ (.error (.http 403))
        (.rendered [])).2.sessionPrimes = 1 ∧
    ¬ (get_board_meetings_for_symbol ⟨true⟩ (.error (.http 403))
        (.rendered [])).2.sessionPrimes = 2 ∧
    TierTag.staticHtml ∉
      (get_board_meetings_for_symbol ⟨true⟩ (.error (.http 403))
        (.rendered [])).2.tiersInvoked := by
  decide

/-- C6 (amended): the pipeline has no static-HTML tier; when the API tier is
blocked with HTTP 403 and the browser tier is enabled, the exception is
swallowed without any session re-prime or retry — the single session priming
of the API helper is the only `_init_nse_session` call — and control falls
directly through to the browser tier. -/
theorem C6_blocked_api_no_reprime (cfg : Config)
    (hcfg : cfg.useSeleniumFallback = true) (browser : BrowserOutcome) :
    (get_board_meetings_for_symbol cfg (.error (.http 403)) browser).2 =
      ⟨[.apiProbe, .browserRender], 1⟩ := by
  cases browser <;> simp [get_board_meetings_for_symbol, tieredFetch, hcfg]

/-- Witness for the amended C6 at a concrete configuration and browser
outcome. -/
theorem C6_witness :
    (Config.useSeleniumFallback ⟨true⟩ = true) ∧
    (get_board_meetings_for_symbol ⟨true⟩ (.error (.http 403))
        (.rendered [])).2 = ⟨[.apiProbe, .browserRender], 1⟩ :=
  ⟨rfl, C6_blocked_api_no_reprime ⟨true⟩ rfl (.rendered [])⟩

/-- C7: with the browser tier disabled by configuration, an API tier that
raised or returned no rows makes each of the four list-returning category
operations raise the RuntimeError about the disabled fallback instead of
trying another tier. -/
theorem C7_fallback_disabled_hard_failure (cfg : Config)
    (hcfg : cfg.useSeleniumFallback = false)
    (apiE : ApiOutcome EventCalRecord) (apiB : ApiOutcome BoardMeetingRecord)
    (apiC : ApiOutcome CorpActionRecord) (apiA : ApiOutcome AnncRecord)
    (hE : (∃ e, apiE = .error e) ∨ apiE = .ok [])
    (hB : (∃ e, apiB = .error e) ∨ apiB = .ok [])
    (hC : (∃ e, apiC = .error e) ∨ apiC = .ok [])
    (hA : (∃ e, apiA = .error e) ∨ apiA = .ok [])
    (bE bB bC : BrowserOutcome) (bA : AnncBrowserOutcome) :
    (get_event_calendar_for_symbol cfg apiE bE).1 =
      .error (.runtime "API fetch failed and Selenium fallback disabled") ∧
    (get_board_meetings_for_symbol cfg apiB bB).1 =
      .error (.runtime "API fetch failed and Selenium fallback disabled") ∧
    (get_corporate_actions_for_symbol cfg apiC bC).1 =
      .error (.runtime "API fetch failed and Selenium fallback disabled") ∧
    (get_announcements_for_symbol cfg apiA bA).1 =
      .error (.runtime "API fetch failed and Selenium fallback disabled") := by
  refine ⟨?_, ?_, ?_, ?_⟩
  · obtain ⟨e', rfl⟩ | rfl := hE <;>
      simp [get_event_calendar_for_symbol, tieredFetch, hcfg]
  · obtain ⟨e', rfl⟩ | rfl := hB <;>
      simp [get_board_meetings_for_symbol, tieredFetch, hcfg]
  · obtain ⟨e', rfl⟩ | rfl := hC <;>
      simp [get_corporate_actions_for_symbol, tieredFetch, hcfg]
  · obtain ⟨e', rfl⟩ | rfl := hA <;>
      simp [get_announcements_for_symbol, hcfg]

/-- Witness for C7 at a concrete disabled configuration: a failed API attempt
for two categories and an empty API result for the other two. -/
theorem C7_witness :
    (Config.useSeleniumFallback ⟨false⟩ = false) ∧
    (get_event_calendar_for_symbol ⟨false⟩ (.error (.http 401))
        (.rendered [])).1 =
      .error (.runtime "API fetch failed and Selenium fallback disabled") ∧
    (get_board_meetings_for_symbol ⟨false⟩ (.ok [])
        (.rendered [])).1 =
      .error (.runtime "API fetch failed and Selenium fallback disabled") ∧
    (get_corporate_actions_for_symbol ⟨false⟩ (.error (.http 401))
        (.rendered [])).1 =
      .error (.runtime "API fetch failed and Selenium fallback disabled") ∧
    (get_announcements_for_symbol ⟨false⟩ (.ok [])
        (.rendered [])).1 =
      .error (.runtime "API fetch failed and Selenium fallback disabled") :=
  ⟨rfl,
   (C7_fallback_disabled_hard_failure ⟨false⟩ rfl
      (.error (.http 401)) (.ok []) (.error (.http 401)) (.ok [])
      (Or.inl ⟨.http 401, rfl⟩) (Or.inr rfl) (Or.inl ⟨.http 401, rfl⟩)
      (Or.inr rfl) (.rendered []) (.rendered []) (.rendered [])
      (.rendered [])).1,
   (C7_fallback_disabled_hard_failure ⟨false⟩ rfl
      (.error (.http 401)) (.ok []) (.error (.http 401)) (.ok [])
      (Or.inl ⟨.http 401, rfl⟩) (Or.inr rfl) (Or.inl ⟨.http 401, rfl⟩)
      (Or.inr rfl) (.rendered []) (.rendered []) (.rendered [])
      (.rendered [])).2.1,
   (C7_fallback_disabled_hard_failure ⟨false⟩ rfl
      (.error (.http 401)) (.ok []) (.error (.http 401)) (.ok [])
      (Or.inl ⟨.http 401, rfl⟩) (Or.inr rfl) (Or.inl ⟨.http 401, rfl⟩)
      (Or.inr rfl) (.rendered []) (.rendered []) (.rendered [])
      (.rendered [])).2.2.1,
   (C7_fallback_disabled_hard_failure ⟨false⟩ rfl
      (.error (.http 401)) (.ok []) (.error (.http 401)) (.ok [])
      (Or.inl ⟨.http 401, rfl⟩) (Or.inr rfl) (Or.inl ⟨.http 401, rfl⟩)
      (Or.inr rfl) (.rendered []) (.rendered []) (.rendered [])
      (.rendered [])).2.2.2⟩

end NSEScraper
